import Mathlib

/-!
Verification of the simulation core of the ThreeSnake3D game (the most complete
version of the game class, `SnakeGame`).  The JavaScript source is shallowly
embedded: continuous positions and wall-clock times are exact rationals,
machine integers are `ℤ`/`ℕ`, the `Math.random()` stream and the wall clock are
explicit inputs (`Env`), and visual-only mutations (meshes, materials, floating
texts, camera, console logging, DOM) are omitted because no simulation decision
reads them back.  Square-root distance comparisons `Math.sqrt(q) < r` in the
source are translated to the equivalent `q < r*r` (both sides are nonnegative);
`Math.sqrt` in the body-follow displacement, whose value feeds no comparison,
is taken from the environment (`Env.sqrtQ`).  The real-valued difficulty curve
`calculateSpeedFromLength` (with its transcendental `Math.pow`/`Math.log`
terms) is embedded separately over `ℝ`; inside the tick, `updateDifficulty`
reads the curve from the environment (`Env.curve`).
-/

namespace SnakeGame

/-- Game configuration constants (`this.GRID_SIZE`, `this.BOARD_SIZE`). -/
def GRID_SIZE : ℚ := 10

/-- Board is `BOARD_SIZE × BOARD_SIZE` grid cells. -/
def BOARD_SIZE : ℤ := 30

/-- Smoothing factor for position interpolation (`this.SMOOTH_FACTOR`). -/
def SMOOTH_FACTOR : ℚ := 0.6

/-- The tunables of `this.DIFFICULTY_CONFIG`. -/
structure DifficultyConfig where
  baseSpeed : ℚ
  initialLength : ℕ
  maxSpeed : ℚ
  linearGrowth : ℚ
  exponentialGrowth : ℚ
  logGrowth : ℚ
  dynamicFactor : ℚ
  minSafeLength : ℤ
  recoveryRate : ℚ
  maxRecoveryTime : ℚ
  comboMultiplier : ℚ
  safetyBuffDuration : ℚ
  deriving Repr, DecidableEq

/-- The values assigned to `this.DIFFICULTY_CONFIG` in the constructor. -/
def DIFFICULTY_CONFIG : DifficultyConfig :=
  { baseSpeed := 10.5
    initialLength := 3
    maxSpeed := 25.0
    linearGrowth := 0.8
    exponentialGrowth := 1.05
    logGrowth := 2.0
    dynamicFactor := 0.6
    minSafeLength := 8
    recoveryRate := 0.15
    maxRecoveryTime := 15000
    comboMultiplier := 1.2
    safetyBuffDuration := 3000 }

/-- One snake segment (`{x, y, actualX, actualY, targetX, targetY, rotation}`).
The `rotation` field is only consumed by rendering and is omitted. -/
structure Segment where
  x : ℤ
  y : ℤ
  actualX : ℚ
  actualY : ℚ
  targetX : ℚ
  targetY : ℚ
  deriving Repr, DecidableEq, Inhabited

/-- The food cell (`this.food`). -/
structure Food where
  x : ℤ
  y : ℤ
  deriving Repr, DecidableEq

/-- Obstacle kind (`this.obstacleTypes` keys). -/
inductive ObstacleType
  | WEAK
  | NORMAL
  | STRONG
  | SPECIAL
  deriving Repr, DecidableEq, Inhabited

/-- Obstacle effect tag (`effect` entries of `this.obstacleTypes`). -/
inductive ObstacleEffect
  | stun
  | shrink
  | halve
  | teleport
  deriving Repr, DecidableEq, Inhabited

/-- The `effect` column of the `this.obstacleTypes` table. -/
def ObstacleType.effectOf : ObstacleType → ObstacleEffect
  | .WEAK => .stun
  | .NORMAL => .shrink
  | .STRONG => .halve
  | .SPECIAL => .teleport

/-- An obstacle.  Of the fields created in `generateObstacle`, the simulation
logic reads `x`, `y`, `level`, `type`, `effect` and `hasLanded`; mesh, shadow,
fall-animation and preview fields are rendering state and are omitted. -/
structure Obstacle where
  x : ℤ
  y : ℤ
  level : ℤ
  type : ObstacleType
  effect : ObstacleEffect
  hasLanded : Bool
  deriving Repr, DecidableEq, Inhabited

/-- The `this.gameState` string. -/
inductive GameMode
  | waiting
  | playing
  | paused
  | gameOver
  deriving Repr, DecidableEq

/-- The `this.levelSystem.levelType` string. -/
inductive LevelType
  | free
  | score
  | length
  | obstacle
  deriving Repr, DecidableEq

/-- The `this.levelSystem` record. -/
structure LevelSystem where
  currentLevel : ℕ
  levelType : LevelType
  isActive : Bool
  startTime : ℚ
  timeLimit : ℚ
  targetScore : ℤ
  targetLength : ℕ
  maxObstacles : ℕ
  decayRate : ℚ
  lastDecayTime : ℚ
  completed : Bool
  failed : Bool
  deriving Repr, DecidableEq

/-- The `this.snakeStunned` record. -/
structure StunState where
  isStunned : Bool
  duration : ℚ
  elapsed : ℚ
  originalSpeed : ℚ
  deriving Repr, DecidableEq

/-- The simulation-relevant mutable fields of the `SnakeGame` object.
Camera, mesh pools, UI elements, visual effects, debug fields, and the
heading pair `targetDirection`/`currentDirection` (whose per-tick cosine and
sine enter through `Env`) are not part of the embedded state. -/
structure GameState where
  snake : List Segment
  food : Food
  obstacles : List Obstacle
  score : ℤ
  gameState : GameMode
  moveSpeed : ℚ
  comboCount : ℕ
  lastFoodTime : ℚ
  isInvulnerable : Bool
  invulnerableEndTime : ℚ
  snakeStunned : StunState
  levelSystem : LevelSystem
  nextObstacleTime : ℚ
  maxObstacles : ℕ
  deriving Repr, DecidableEq

/-- Per-tick environment: the wall clock (`Date.now()`), the values of
`Math.cos`/`Math.sin` at the interpolated heading, the `Math.random()` stream
(consumed left to right, threaded by index), `Math.sqrt` for the body-follow
displacement, and the difficulty curve consulted by `updateDifficulty`. -/
structure Env where
  now : ℚ
  cosDir : ℚ
  sinDir : ℚ
  rand : ℕ → ℚ
  sqrtQ : ℚ → ℚ
  curve : ℕ → ℚ

/-- Method `startSnakeStun(duration)`: record the stun, store the pre-stun
speed, and slow down immediately. -/
def startSnakeStun (duration : ℚ) (s : GameState) : GameState :=
  { s with
    snakeStunned :=
      { isStunned := true, duration := duration, elapsed := 0
        originalSpeed := s.moveSpeed }
    moveSpeed := s.moveSpeed * 0.3 }

/-- Method `updateSnakeStun()`: advance the stun timer by the fixed per-tick
increment (16 ms) and restore the stored speed on expiry. -/
def updateSnakeStun (s : GameState) : GameState :=
  if s.snakeStunned.isStunned = false then s
  else
    let elapsed := s.snakeStunned.elapsed + 16
    if s.snakeStunned.duration ≤ elapsed then
      { s with
        snakeStunned := { s.snakeStunned with isStunned := false, elapsed := elapsed }
        moveSpeed := s.snakeStunned.originalSpeed }
    else
      { s with snakeStunned := { s.snakeStunned with elapsed := elapsed } }

/-- Method `updateInvulnerability()` (the emissive-flash effect on the head
material is rendering-only and omitted). -/
def updateInvulnerability (now : ℚ) (s : GameState) : GameState :=
  if s.isInvulnerable = false then s
  else if s.invulnerableEndTime ≤ now then { s with isInvulnerable := false }
  else s

/-- Method `activateSafetyBuff(duration)`: invulnerability with an absolute
expiry timestamp. -/
def activateSafetyBuff (duration : ℚ) (now : ℚ) (s : GameState) : GameState :=
  { s with isInvulnerable := true, invulnerableEndTime := now + duration }

/-- Method `isPositionOccupied(x, y)`: cell overlap against snake body, food
and existing obstacles. -/
def isPositionOccupied (s : GameState) (x y : ℤ) : Bool :=
  s.snake.any (fun seg => seg.x == x && seg.y == y) ||
    (s.food.x == x && s.food.y == y) ||
    s.obstacles.any (fun o => o.x == x && o.y == y)

/-- The cell sampled by one loop iteration of the rejection samplers:
`{x: Math.floor(Math.random()*BOARD_SIZE), y: Math.floor(Math.random()*BOARD_SIZE)}`,
consuming two stream values starting at index `i`. -/
def sampleCell (rand : ℕ → ℚ) (i : ℕ) : ℤ × ℤ :=
  (Int.floor (rand i * 30), Int.floor (rand (i + 1) * 30))

/-- The shared `do { cell = random } while (occupied(cell) && attempts < cap)`
loop of `teleportSnakeHead` (cap 50), `generateObstacle` (cap 50) and
`generateFood` (cap 100).  Returns the last sampled cell, the final value of
`attempts`, and the next unconsumed stream index.  `fuel` is initialised to
`cap`; since `attempts` starts at `0` and grows by one per iteration, the
`fuel = 0` base case is unreachable for `cap ≥ 1`. -/
def doWhileSample (occ : ℤ × ℤ → Bool) (rand : ℕ → ℚ) (cap : ℕ) :
    ℕ → ℕ → ℕ → (ℤ × ℤ) × ℕ × ℕ
  | 0, i, attempts => ((0, 0), attempts, i)
  | fuel + 1, i, attempts =>
    let cell := sampleCell rand i
    let attempts := attempts + 1
    if occ cell ∧ attempts < cap then
      doWhileSample occ rand cap fuel (i + 2) attempts
    else
      (cell, attempts, i + 2)

/-- Method `teleportSnakeHead()`: rejection-sample a free cell (at most 50
attempts) and, if the attempt cap was not reached, move the head there
(grid and continuous coordinates); the camera-shake side effect is omitted. -/
def teleportSnakeHead (env : Env) (ri : ℕ) (s : GameState) : GameState × ℕ :=
  let r := doWhileSample (fun c => isPositionOccupied s c.1 c.2) env.rand 50 50 ri 0
  let cell := r.1
  let attempts := r.2.1
  let ri' := r.2.2
  if attempts < 50 then
    match s.snake with
    | [] => (s, ri')
    | head :: rest =>
      ({ s with
          snake :=
            { head with
              x := cell.1, y := cell.2
              actualX := (cell.1 : ℚ) * GRID_SIZE, actualY := (cell.2 : ℚ) * GRID_SIZE
              targetX := (cell.1 : ℚ) * GRID_SIZE, targetY := (cell.2 : ℚ) * GRID_SIZE }
              :: rest }, ri')
  else (s, ri')

/-- Method `createNewSnakeSegment()`: clone of the current tail segment. -/
def createNewSnakeSegment (s : GameState) : Segment :=
  let tail := s.snake.getLastD default
  { x := tail.x, y := tail.y
    actualX := tail.actualX, actualY := tail.actualY
    targetX := tail.actualX, targetY := tail.actualY }

/-- Method `handleObstacleReward(obstacle, ...)`: effect-tag dispatch of the
reward branch (floating texts, camera shake and screen flash omitted). -/
def handleObstacleReward (env : Env) (effect : ObstacleEffect) (s : GameState) :
    GameState :=
  match effect with
  | .stun => { s with score := s.score + 20 }
  | .shrink =>
    let comboCount := s.comboCount + 1
    { s with comboCount := comboCount, score := s.score + 30 * (comboCount : ℤ) }
  | .halve =>
    { s with snake := s.snake ++ [createNewSnakeSegment s], score := s.score + 50 }
  | .teleport =>
    let s' := activateSafetyBuff DIFFICULTY_CONFIG.safetyBuffDuration env.now s
    { s' with score := s'.score + 100 }

/-- Method `handleObstaclePenalty(obstacle, snakeLength, obstacleLevel)`:
effect-tag dispatch of the penalty branch, length clamp at the floor of 3,
combo reset, safety-buff trigger at the `minSafeLength` threshold, and the
trailing 600 ms stun.  The `stun` tag starts an 800 ms stun inside the switch
and the trailing 600 ms stun is started afterwards as well, exactly as in the
source.  Returns the new state and the next random-stream index. -/
def handleObstaclePenalty (env : Env) (ri : ℕ) (effect : ObstacleEffect)
    (snakeLength : ℕ) (s : GameState) : GameState × ℕ :=
  let base : GameState × ℕ × ℤ :=
    match effect with
    | .stun => (startSnakeStun 800 s, ri, (snakeLength : ℤ))
    | .shrink =>
      -- newLength = Math.max(3, snakeLength - Math.floor(Math.random() * 2) - 1)
      (s, ri + 1, max 3 ((snakeLength : ℤ) - Int.floor (env.rand ri * 2) - 1))
    | .halve =>
      -- newLength = Math.max(3, Math.floor(snakeLength / 2))
      (s, ri, max 3 ((snakeLength : ℤ) / 2))
    | .teleport =>
      let t := teleportSnakeHead env ri s
      (t.1, t.2, (snakeLength : ℤ))
  let s1 := base.1
  let ri1 := base.2.1
  let newLength := base.2.2
  let s2 :=
    if newLength < (snakeLength : ℤ) then
      { s1 with snake := s1.snake.take newLength.toNat }
    else s1
  let s3 := { s2 with comboCount := 0 }
  let s4 :=
    if newLength ≤ DIFFICULTY_CONFIG.minSafeLength then
      activateSafetyBuff DIFFICULTY_CONFIG.safetyBuffDuration env.now s3
    else s3
  (startSnakeStun 600 s4, ri1)

/-- Method `handleObstacleCollision(obstacle, index)`: remove the obstacle,
dispatch reward (`snakeLength >= obstacle.level`) or penalty, then
`updateDifficulty()` recomputes the speed from the new length (mesh rebuild and
obstacle recoloring omitted). -/
def handleObstacleCollision (env : Env) (ri : ℕ) (obstacle : Obstacle)
    (index : ℕ) (s : GameState) : GameState × ℕ :=
  let snakeLength := s.snake.length
  let obstacleLevel := obstacle.level
  let s0 := { s with obstacles := s.obstacles.eraseIdx index }
  let r :=
    if obstacleLevel ≤ (snakeLength : ℤ) then
      (handleObstacleReward env obstacle.effect s0, ri)
    else
      handleObstaclePenalty env ri obstacle.effect snakeLength s0
  ({ r.1 with moveSpeed := env.curve r.1.snake.length }, r.2)

/-- Method `applyObstacleDecay()`: score decay by `floor(decayRate * 10)`, and
a tail pop with probability `decayRate * 0.1` guarded by `length > 3` (the
random draw is only consumed when the length guard passes, matching `&&`
short-circuiting); `updateDifficulty()` then recomputes the speed. -/
def applyObstacleDecay (env : Env) (ri : ℕ) (s : GameState) : GameState × ℕ :=
  let decayAmount := s.levelSystem.decayRate
  let s1 := { s with score := max 0 (s.score - Int.floor (decayAmount * 10)) }
  if 3 < s1.snake.length then
    if env.rand ri < decayAmount * 0.1 then
      let snake' := s1.snake.dropLast
      ({ s1 with snake := snake', moveSpeed := env.curve snake'.length }, ri + 1)
    else (s1, ri + 1)
  else (s1, ri)

/-- Method `getDifficultyMultiplier()` for obstacle spawn scheduling. -/
def getDifficultyMultiplier (s : GameState) : ℚ :=
  max (1 + ((s.snake.length : ℤ) - 3 : ℤ) * (0.1 : ℚ) + (s.score : ℚ) * 0.001) 0.3

/-- Method `scheduleNextObstacle()`: randomized interval between the
difficulty-scaled min/max bounds. -/
def scheduleNextObstacle (env : Env) (ri : ℕ) (s : GameState) : GameState × ℕ :=
  let difficultyMultiplier := getDifficultyMultiplier s
  let minInterval := 8000 / difficultyMultiplier
  let maxInterval := 15000 / difficultyMultiplier
  let interval := minInterval + env.rand ri * (maxInterval - minInterval)
  ({ s with nextObstacleTime := env.now + interval }, ri + 1)

/-- Method `generateObstacleLevel()`: type and level selection from the three
snake-length bands; `typeChance` consumes one stream value, and the branches
that call `Math.random()` again for the level offset consume one more. -/
def generateObstacleLevel (env : Env) (ri : ℕ) (s : GameState) :
    (ObstacleType × ℤ) × ℕ :=
  let snakeLength : ℤ := s.snake.length
  let typeChance := env.rand ri
  if snakeLength ≤ 5 then
    if typeChance < 0.6 then ((.WEAK, max 1 (snakeLength - 2)), ri + 1)
    else if typeChance < 0.9 then ((.NORMAL, snakeLength), ri + 1)
    else ((.STRONG, snakeLength + 2), ri + 1)
  else if snakeLength ≤ 15 then
    if typeChance < 0.3 then ((.WEAK, max 1 (snakeLength - 3)), ri + 1)
    else if typeChance < 0.7 then
      ((.NORMAL, snakeLength + Int.floor (env.rand (ri + 1) * 3) - 1), ri + 2)
    else if typeChance < 0.95 then
      ((.STRONG, snakeLength + Int.floor (env.rand (ri + 1) * 5) + 1), ri + 2)
    else ((.SPECIAL, snakeLength + Int.floor (env.rand (ri + 1) * 3)), ri + 2)
  else
    if typeChance < 0.2 then ((.WEAK, max 1 (snakeLength - 5)), ri + 1)
    else if typeChance < 0.5 then
      ((.NORMAL, snakeLength + Int.floor (env.rand (ri + 1) * 3)), ri + 2)
    else if typeChance < 0.9 then
      ((.STRONG, snakeLength + Int.floor (env.rand (ri + 1) * 8) + 2), ri + 2)
    else ((.SPECIAL, snakeLength + Int.floor (env.rand (ri + 1) * 5)), ri + 2)

/-- Method `generateObstacle()`: no-op at the `maxObstacles` cap; otherwise
rejection-sample a position (at most 50 attempts, the loop body as in the
source), give up when `attempts >= 50`, else pick type/level and append the
new obstacle (spawned in the falling state, `hasLanded = false`; the mesh,
shadow, and fall-animation bookkeeping are omitted). -/
def generateObstacle (env : Env) (ri : ℕ) (s : GameState) : GameState × ℕ :=
  if s.maxObstacles ≤ s.obstacles.length then (s, ri)
  else
    let r := doWhileSample (fun c => isPositionOccupied s c.1 c.2) env.rand 50 50 ri 0
    let position := r.1
    let attempts := r.2.1
    let ri1 := r.2.2
    if 50 ≤ attempts then (s, ri1)
    else
      let gl := generateObstacleLevel env ri1 s
      let obstacleInfo := gl.1
      let ri2 := gl.2
      ({ s with
          obstacles := s.obstacles ++
            [{ x := position.1, y := position.2, level := obstacleInfo.2
               type := obstacleInfo.1, effect := obstacleInfo.1.effectOf
               hasLanded := false }] }, ri2)

/-- Method `updateObstacleSpawning()`: while playing, when the scheduled spawn
time has arrived, attempt a spawn and schedule the next one (the schedule is
always advanced, whether or not an obstacle was created). -/
def updateObstacleSpawning (env : Env) (ri : ℕ) (s : GameState) : GameState × ℕ :=
  if s.gameState ≠ GameMode.playing then (s, ri)
  else if s.nextObstacleTime ≤ env.now then
    let g := generateObstacle env ri s
    scheduleNextObstacle env g.2 g.1
  else (s, ri)

/-- Method `pauseGame()` (status-bar text and warning-wall hiding omitted). -/
def pauseGame (s : GameState) : GameState :=
  { s with gameState := GameMode.paused }

/-- Method `levelCompleted()`: mark the level complete and pause the game
(the completion dialog and visual effects are omitted). -/
def levelCompletedFn (s : GameState) : GameState :=
  pauseGame
    { s with levelSystem := { s.levelSystem with completed := true, isActive := false } }

/-- Method `levelFailed(reason)`: mark the level failed and pause the game
(the failure dialog and visual effects are omitted). -/
def levelFailedFn (s : GameState) : GameState :=
  pauseGame
    { s with levelSystem := { s.levelSystem with failed := true, isActive := false } }

/-- Method `checkLevelCompletion()`: terminal states are latched; otherwise the
completion condition of the current level type is tested against the *current*
state (`now` is the `Date.now()` read in the `obstacle` branch). -/
def checkLevelCompletion (now : ℚ) (s : GameState) : GameState :=
  if s.levelSystem.completed || s.levelSystem.failed then s
  else
    let completed : Bool :=
      match s.levelSystem.levelType with
      | .free => false
      | .score => decide (s.levelSystem.targetScore ≤ s.score)
      | .length => decide (s.levelSystem.targetLength ≤ s.snake.length)
      | .obstacle =>
        decide (s.obstacles.length ≤ s.levelSystem.maxObstacles
          ∧ 30000 ≤ now - s.levelSystem.startTime)
    if completed then levelCompletedFn s else s

/-- Method `updateLevelSystem()`: guard on an active level while playing; the
time-limit deadline first (completion is attempted before failing), then the
once-per-second obstacle decay while over the cap, then the completion check
(the UI update is omitted). -/
def updateLevelSystem (env : Env) (ri : ℕ) (s : GameState) : GameState × ℕ :=
  if s.levelSystem.isActive = false ∨ s.gameState ≠ GameMode.playing then (s, ri)
  else
    let currentTime := env.now
    let timeCheck : GameState × Bool :=
      if 0 < s.levelSystem.timeLimit ∧
          s.levelSystem.timeLimit ≤ currentTime - s.levelSystem.startTime then
        let s1 := checkLevelCompletion currentTime s
        if s1.levelSystem.completed = false then (levelFailedFn s1, true)
        else (s1, false)
      else (s, false)
    if timeCheck.2 then (timeCheck.1, ri)
    else
      let s1 := timeCheck.1
      let d : GameState × ℕ :=
        if 0 < s1.levelSystem.maxObstacles then
          if s1.levelSystem.maxObstacles < s1.obstacles.length then
            if 1000 ≤ currentTime - s1.levelSystem.lastDecayTime then
              let a := applyObstacleDecay env ri s1
              ({ a.1 with
                  levelSystem := { a.1.levelSystem with lastDecayTime := currentTime } },
                a.2)
            else (s1, ri)
          else
            ({ s1 with
                levelSystem := { s1.levelSystem with lastDecayTime := currentTime } }, ri)
        else (s1, ri)
      (checkLevelCompletion currentTime d.1, d.2)

/-- Method `gameOver()`: in an active, non-terminated level this delegates to
`levelFailed`; otherwise the game-over state is entered, all obstacles are
cleared and the stun flag is dropped (dialogs, flashes and camera effects are
omitted). -/
def gameOverFn (s : GameState) : GameState :=
  if s.levelSystem.isActive && !s.levelSystem.completed && !s.levelSystem.failed then
    levelFailedFn s
  else
    { s with
      gameState := GameMode.gameOver
      obstacles := [], nextObstacleTime := 0
      snakeStunned := { s.snakeStunned with isStunned := false } }

/-- The head segment `this.snake[0]` (the source assumes a nonempty snake). -/
def headSeg (s : GameState) : Segment :=
  s.snake.headI

/-- The loop body of `checkObstacleCollision()`: iterate `i` from
`obstacles.length - 1` down to `0`, skip obstacles that have not landed, and
resolve the first (in that order) landed obstacle whose center is within the
collision radius `GRID_SIZE * 0.7 = 7` of the head (`Math.sqrt(dsq) < 7` is
translated to `dsq < 49`).  The counter argument is `i + 1`. -/
def checkObstacleLoop (env : Env) (ri : ℕ) (s : GameState) :
    ℕ → GameState × ℕ × Bool
  | 0 => (s, ri, false)
  | k + 1 =>
    match s.obstacles.get? k with
    | none => checkObstacleLoop env ri s k
    | some obstacle =>
      if obstacle.hasLanded = false then checkObstacleLoop env ri s k
      else
        let head := headSeg s
        let dx := head.actualX - (obstacle.x : ℚ) * GRID_SIZE
        let dy := head.actualY - (obstacle.y : ℚ) * GRID_SIZE
        if dx * dx + dy * dy < 49 then
          let r := handleObstacleCollision env ri obstacle k s
          (r.1, r.2, true)
        else checkObstacleLoop env ri s k

/-- Method `checkObstacleCollision()`: skipped entirely while invulnerable;
otherwise scan the obstacle list from its end and resolve at most one hit. -/
def checkObstacleCollision (env : Env) (ri : ℕ) (s : GameState) :
    GameState × ℕ × Bool :=
  if s.isInvulnerable then (s, ri, false)
  else checkObstacleLoop env ri s s.obstacles.length

/-- Snake-only occupancy test of the `generateFood()` fallback loop: grid
cells recomputed from the segments' *continuous* positions. -/
def snakeGridOccupied (s : GameState) (c : ℤ × ℤ) : Bool :=
  s.snake.any fun seg =>
    Int.floor (seg.actualX / GRID_SIZE) == c.1 &&
      Int.floor (seg.actualY / GRID_SIZE) == c.2

/-- Method `generateFood()`: rejection sampling against full occupancy for at
most 100 attempts; on exhaustion, an unconditional resample that only avoids
snake segments.  The source's fallback loop is unbounded
(`do {...} while (snake.some(...))`); this embedding bounds it with a large
fuel (1000000 samples), which is unobservable unless the random stream feeds
the loop that many occupied cells in a row. -/
def generateFood (env : Env) (ri : ℕ) (s : GameState) : GameState × ℕ :=
  let r := doWhileSample (fun c => isPositionOccupied s c.1 c.2) env.rand 100 100 ri 0
  let attempts := r.2.1
  if 100 ≤ attempts then
    let f := doWhileSample (fun c => snakeGridOccupied s c) env.rand 1000000 1000000
      r.2.2 0
    ({ s with food := { x := f.1.1, y := f.1.2 } }, f.2.2)
  else
    ({ s with food := { x := r.1.1, y := r.1.2 } }, r.2.2)

/-- The head-movement block at the top of `update()`: the per-tick speed
factor `min(moveSpeed * 0.02, 1.0)`, the stun recoil (during the first half of
a stun the heading is reversed — `cos/sin(θ + π) = -cos/sin(θ)` — and the
factor is halved), the goal-position advance, and the smoothing interpolation
of the rendered position.  The heading interpolation itself lives outside the
embedded state; `env.cosDir`/`env.sinDir` are the cosine and sine of the
interpolated heading of this tick. -/
def movedHead (env : Env) (s : GameState) : Segment :=
  let head := headSeg s
  let moveSpeedFactor := min (s.moveSpeed * 0.02) 1
  let recoil : Bool :=
    s.snakeStunned.isStunned &&
      decide (s.snakeStunned.elapsed / s.snakeStunned.duration < 0.5)
  let c := if recoil then -env.cosDir else env.cosDir
  let sn := if recoil then -env.sinDir else env.sinDir
  let f := if recoil then moveSpeedFactor * 0.5 else moveSpeedFactor
  let targetX := head.targetX + c * f
  let targetY := head.targetY + sn * f
  { head with
    targetX := targetX, targetY := targetY
    actualX := head.actualX + (targetX - head.actualX) * SMOOTH_FACTOR
    actualY := head.actualY + (targetY - head.actualY) * SMOOTH_FACTOR }

/-- Replace the head segment (`this.snake[0]` is mutated in place). -/
def setHead (h : Segment) (s : GameState) : GameState :=
  match s.snake with
  | [] => s
  | _ :: rest => { s with snake := h :: rest }

/-- The boundary check of `update()`: game over when the head's continuous
position leaves `[0, BOARD_SIZE * GRID_SIZE)` on either axis (the upper edge
`300` is exclusive: `actualX >= maxBoundary` fires). -/
def boundaryHit (head : Segment) : Bool :=
  decide (head.actualX < 0) || decide ((300 : ℚ) ≤ head.actualX) ||
    decide (head.actualY < 0) || decide ((300 : ℚ) ≤ head.actualY)

/-- The self-collision loop of `update()`: the head against every segment from
index 3 onward, squared distance against `(GRID_SIZE * 0.8)^2 = 64`. -/
def selfCollisionHit (s : GameState) : Bool :=
  let head := headSeg s
  (s.snake.drop 3).any fun segment =>
    let dx := head.actualX - segment.actualX
    let dy := head.actualY - segment.actualY
    decide (dx * dx + dy * dy < 64)

/-- The food-collision block of `update()`: plain distance against
`GRID_SIZE * 0.7 = 7` (`Math.sqrt(dsq) < 7` translated to `dsq < 49`); on a
hit, the combo window (3000 ms), scoring, tail-clone growth,
`updateDifficulty()` (via `env.curve`) and `generateFood()`. -/
def foodPhase (env : Env) (ri : ℕ) (s : GameState) : GameState × ℕ :=
  let head := headSeg s
  let dx := head.actualX - (s.food.x : ℚ) * GRID_SIZE
  let dy := head.actualY - (s.food.y : ℚ) * GRID_SIZE
  if dx * dx + dy * dy < 49 then
    let currentTime := env.now
    let comboCount :=
      if currentTime - s.lastFoodTime < 3000 then s.comboCount + 1 else 1
    let baseScore : ℤ := 10
    let comboBonus : ℤ := if 1 < comboCount then ((comboCount : ℤ) - 1) * 5 else 0
    let totalScore := baseScore + comboBonus
    let tail := s.snake.getLastD default
    let newSegment : Segment :=
      { x := tail.x, y := tail.y
        actualX := tail.actualX, actualY := tail.actualY
        targetX := tail.actualX, targetY := tail.actualY }
    let s1 :=
      { s with
        comboCount := comboCount, lastFoodTime := currentTime
        score := s.score + totalScore
        snake := s.snake ++ [newSegment] }
    let s2 := { s1 with moveSpeed := env.curve s1.snake.length }
    generateFood env ri s2
  else (s, ri)

/-- One body segment of the follow loop: pull the goal position toward the
segment ahead when the squared gap exceeds `GRID_SIZE^2 = 100`
(`Math.sqrt` of the squared distance is taken from the environment), then
smooth the rendered position and refresh the grid cell. -/
def followSegment (sqrtQ : ℚ → ℚ) (target current : Segment) : Segment :=
  let dx := target.actualX - current.actualX
  let dy := target.actualY - current.actualY
  let distanceSq := dx * dx + dy * dy
  let p : ℚ × ℚ :=
    if 100 < distanceSq then
      let distance := sqrtQ distanceSq
      let pull := (distance - GRID_SIZE) / distance * 0.8
      (current.actualX + dx * pull, current.actualY + dy * pull)
    else (current.targetX, current.targetY)
  let aX := current.actualX + (p.1 - current.actualX) * SMOOTH_FACTOR
  let aY := current.actualY + (p.2 - current.actualY) * SMOOTH_FACTOR
  { x := Int.floor (aX / GRID_SIZE), y := Int.floor (aY / GRID_SIZE)
    actualX := aX, actualY := aY, targetX := p.1, targetY := p.2 }

/-- The sequential body of the follow loop: segment `i` follows the
already-updated segment `i - 1`. -/
def followList (sqrtQ : ℚ → ℚ) : Segment → List Segment → List Segment
  | _, [] => []
  | prev, current :: rest =>
    let current' := followSegment sqrtQ prev current
    current' :: followList sqrtQ current' rest

/-- The body-follow loop at the end of `update()`. -/
def followPhase (env : Env) (s : GameState) : GameState :=
  match s.snake with
  | [] => s
  | head :: rest => { s with snake := head :: followList env.sqrtQ head rest }

/-- Markers recording that `update()` reached the corresponding collision
check on a tick. -/
inductive CheckEvent
  | boundary
  | obstacle
  | selfCheck
  | food
  deriving Repr, DecidableEq

/-- Method `update()` — one simulation tick, instrumented with the list of
collision checks it reaches, in evaluation order.  The stages are exactly the
source's statement order: head movement, boundary check (game over returns
immediately), grid-cell refresh, `updateObstacleSpawning`, `updateSnakeStun`,
`updateInvulnerability`, `updateLevelSystem`, `checkObstacleCollision`, the
self-collision loop (game over returns immediately), the food block, and the
body-follow loop.  `updateBoundaryWarning`, `updateCameraShake`,
`updateVisualEffects`, mesh/camera updates and logging touch no simulation
state and are omitted. -/
def updateWithTrace (env : Env) (ri : ℕ) (s : GameState) :
    GameState × ℕ × List CheckEvent :=
  let head' := movedHead env s
  let s0 := setHead head' s
  if boundaryHit head' then (gameOverFn s0, ri, [.boundary])
  else
    let s1 := setHead
      { head' with
        x := Int.floor (head'.actualX / GRID_SIZE)
        y := Int.floor (head'.actualY / GRID_SIZE) } s0
    let p2 := updateObstacleSpawning env ri s1
    let s3 := updateSnakeStun p2.1
    let s4 := updateInvulnerability env.now s3
    let p5 := updateLevelSystem env p2.2 s4
    let p6 := checkObstacleCollision env p5.2 p5.1
    if selfCollisionHit p6.1 then
      (gameOverFn p6.1, p6.2.1, [.boundary, .obstacle, .selfCheck])
    else
      let p7 := foodPhase env p6.2.1 p6.1
      (followPhase env p7.1, p7.2, [.boundary, .obstacle, .selfCheck, .food])

/-- Method `update()` without the instrumentation. -/
def update (env : Env) (ri : ℕ) (s : GameState) : GameState × ℕ :=
  let u := updateWithTrace env ri s
  (u.1, u.2.1)

/-- The staged `speedIncrease` block of `calculateSpeedFromLength(length)`:
linear regime for `lengthDiff <= 10`, linear-plus-exponential for
`10 < lengthDiff <= 30`, and linear-plus-fixed-exponential-plus-logarithmic
beyond.  The numeric literals are `linearGrowth = 0.8`,
`exponentialGrowth = 1.05` and `logGrowth = 2.0` from `DIFFICULTY_CONFIG`;
`Math.pow`/`Math.log` are `Real.rpow`/`Real.log`. -/
noncomputable def speedIncreaseRaw (lengthDiff : ℕ) : ℝ :=
  if lengthDiff ≤ 10 then (lengthDiff : ℝ) * 0.8
  else if lengthDiff ≤ 30 then
    5 * 0.8 + ((lengthDiff : ℝ) - 5) * 0.8 * (1.05 : ℝ) ^ (((lengthDiff : ℝ) - 5) * 0.1)
  else
    5 * 0.8 + 7 * 0.8 * (1.05 : ℝ) ^ (0.7 : ℝ) + Real.log ((lengthDiff : ℝ) - 7) * 2.0

/-- The dynamic-balance block of `calculateSpeedFromLength`: damp by
`dynamicFactor = 0.6` below `minSafeLength = 8`, else scale up by the
survival-time bonus (`recoveryRate = 0.15`, `maxRecoveryTime = 15000`).
`survivalTime` is the session field refreshed by `updateSurvivalTime()`,
held fixed here as a parameter. -/
noncomputable def dynamicFactorR (survivalTime : ℝ) (length : ℕ) : ℝ :=
  if length < 8 then 0.6
  else 1 + min 1 (survivalTime / 15000) * 0.15

/-- The combo block of `calculateSpeedFromLength`: once the combo count
exceeds 3, multiply by `comboMultiplier ^ min(comboCount - 3, 5)`
(`comboMultiplier = 1.2`); otherwise the increase is left alone
(factor `1`). -/
noncomputable def comboFactorR (comboCount : ℕ) : ℝ :=
  if 3 < comboCount then (1.2 : ℝ) ^ (min (comboCount - 3) 5) else 1

/-- Method `calculateSpeedFromLength(length)` over `ℝ`.
`lengthDiff = Math.max(0, length - initialLength)` is truncated `ℕ`
subtraction; the early return yields `baseSpeed = 10.5`, and the final speed
is `min(baseSpeed + speedIncrease, maxSpeed)` with `maxSpeed = 25`. -/
noncomputable def calculateSpeedFromLength (survivalTime : ℝ) (comboCount : ℕ)
    (length : ℕ) : ℝ :=
  let lengthDiff := length - DIFFICULTY_CONFIG.initialLength
  if lengthDiff = 0 then 10.5
  else
    let speedIncrease :=
      speedIncreaseRaw lengthDiff * dynamicFactorR survivalTime length *
        comboFactorR comboCount
    min (10.5 + speedIncrease) 25

/-- The tick variant asserted by the invulnerability claim: the same pipeline
as `updateWithTrace` with the obstacle-collision resolution replaced by a
no-op (state and random stream untouched; the check-site marker is still
recorded, since `update()` reaches the call).  Used only to be compared
against `updateWithTrace`. -/
def updateWithTraceInvulnerableSpec (env : Env) (ri : ℕ) (s : GameState) :
    GameState × ℕ × List CheckEvent :=
  let head' := movedHead env s
  let s0 := setHead head' s
  if boundaryHit head' then (gameOverFn s0, ri, [.boundary])
  else
    let s1 := setHead
      { head' with
        x := Int.floor (head'.actualX / GRID_SIZE)
        y := Int.floor (head'.actualY / GRID_SIZE) } s0
    let p2 := updateObstacleSpawning env ri s1
    let s3 := updateSnakeStun p2.1
    let s4 := updateInvulnerability env.now s3
    let p5 := updateLevelSystem env p2.2 s4
    let p6 : GameState × ℕ × Bool := (p5.1, p5.2, false)
    if selfCollisionHit p6.1 then
      (gameOverFn p6.1, p6.2.1, [.boundary, .obstacle, .selfCheck])
    else
      let p7 := foodPhase env p6.2.1 p6.1
      (followPhase env p7.1, p7.2, [.boundary, .obstacle, .selfCheck, .food])

/-- A segment resting at grid cell `(x, y)`. -/
def mkSeg (x y : ℤ) : Segment :=
  { x := x, y := y
    actualX := (x : ℚ) * 10, actualY := (y : ℚ) * 10
    targetX := (x : ℚ) * 10, targetY := (y : ℚ) * 10 }

/-- The `this.levelSystem` record as initialised in the constructor. -/
def initialLevelSystem : LevelSystem :=
  { currentLevel := 1, levelType := .free, isActive := false
    startTime := 0, timeLimit := 0, targetScore := 0, targetLength := 0
    maxObstacles := 0, decayRate := 0, lastDecayTime := 0
    completed := false, failed := false }

/-- A playing state mirroring the constructor's initial snake/food layout,
with no live obstacles, no status effects and an inactive level. -/
def baseState : GameState :=
  { snake := [mkSeg 15 15, mkSeg 14 15, mkSeg 13 15]
    food := { x := 20, y := 20 }
    obstacles := []
    score := 0
    gameState := .playing
    moveSpeed := 10.5
    comboCount := 0
    lastFoodTime := 0
    isInvulnerable := false
    invulnerableEndTime := 0
    snakeStunned := { isStunned := false, duration := 0, elapsed := 0, originalSpeed := 0 }
    levelSystem := initialLevelSystem
    nextObstacleTime := 1000000000
    maxObstacles := 5 }

/-- A simple deterministic environment (heading due east, zeroed random
stream, difficulty curve pinned at the base speed). -/
def baseEnv : Env :=
  { now := 1000, cosDir := 1, sinDir := 0
    rand := fun _ => 0, sqrtQ := fun _ => 0, curve := fun _ => 10.5 }

/-- The STRONG (halve-tagged) obstacle of level 10 of the C6 scenario,
landed on the head's cell. -/
def obC6 : Obstacle :=
  { x := 15, y := 15, level := 10, type := .STRONG, effect := ObstacleType.STRONG.effectOf
    hasLanded := true }

/-- A length-4 snake about to resolve `obC6` (combo count 2 so the reset is
observable). -/
def stateC6 : GameState :=
  { baseState with
    snake := [mkSeg 15 15, mkSeg 14 15, mkSeg 13 15, mkSeg 12 15]
    obstacles := [obC6]
    comboCount := 2 }

/-- A WEAK (stun-tagged) obstacle of level 10, landed on the head's cell. -/
def obC2 : Obstacle :=
  { x := 15, y := 15, level := 10, type := .WEAK, effect := ObstacleType.WEAK.effectOf
    hasLanded := true }

/-- A length-3 snake with speed 10 about to resolve the stun-tagged `obC2`. -/
def stateC2 : GameState :=
  { baseState with obstacles := [obC2], moveSpeed := 10 }

/-- The stun round-trip property claimed for every penalty effect tag:
after the penalty collision is resolved and the resulting stun has run out
(the 600 ms trailing stun expires on the 38th 16 ms step), the speed is back
to its pre-collision value. -/
def stunRoundTripClaim : Prop :=
  ∀ (env : Env) (ri : ℕ) (ob : Obstacle) (idx : ℕ) (s : GameState) (k : ℕ),
    (s.snake.length : ℤ) < ob.level → 38 ≤ k →
      (updateSnakeStun^[k] (handleObstacleCollision env ri ob idx s).1).moveSpeed =
        s.moveSpeed

/-- The collision-check order claimed by the spec: boundary first, then
self-collision, then obstacle, then food, with the run ending early at a
fatal check. -/
def claimedCheckOrder : Prop :=
  ∀ (env : Env) (ri : ℕ) (s : GameState),
    (updateWithTrace env ri s).2.2 = [.boundary] ∨
      (updateWithTrace env ri s).2.2 = [.boundary, .selfCheck] ∨
      (updateWithTrace env ri s).2.2 = [.boundary, .selfCheck, .obstacle, .food]

/-- An invulnerable variant of `baseState` whose buff outlives `baseEnv.now`. -/
def stateC7 : GameState :=
  { baseState with isInvulnerable := true, invulnerableEndTime := 2000 }

/-- A state whose head lands exactly on the upper boundary this tick:
`actualX' = 298.5 + ((300 + min(50 * 0.02, 1)) - 298.5) * 0.6 = 300`. -/
def stateC8 : GameState :=
  { baseState with
    moveSpeed := 50
    snake :=
      [{ x := 29, y := 15, actualX := 298.5, actualY := 150
         targetX := 300, targetY := 150 }, mkSeg 28 15, mkSeg 27 15] }

/-- The grid cell drawn by the `k`-th spawn-sampling attempt (attempts are
numbered from 0; each consumes two stream values). -/
def cellAt (env : Env) (ri k : ℕ) : ℤ × ℤ :=
  sampleCell env.rand (ri + 2 * k)

/-- The spawn no-op condition claimed by the spec: the obstacle list is left
unchanged exactly when the cap is reached or none of the 50 sampled cells is
free. -/
def spawnNoOpClaim : Prop :=
  ∀ (env : Env) (ri : ℕ) (s : GameState),
    (generateObstacle env ri s).1.obstacles = s.obstacles ↔
      (s.maxObstacles ≤ s.obstacles.length ∨
        ∀ k, k < 50 → isPositionOccupied s (cellAt env ri k).1 (cellAt env ri k).2 = true)

/-- A random stream whose first 49 sampled cells are the food cell `(20, 20)`
and whose 50th sampled cell is the free cell `(0, 0)`. -/
def envC9 : Env :=
  { baseEnv with rand := fun i => if i < 98 then 2 / 3 else 0 }

/-- A landed dummy obstacle used to realise a prescribed obstacle count. -/
def dummyObstacle : Obstacle :=
  { x := 0, y := 0, level := 1, type := .WEAK, effect := ObstacleType.WEAK.effectOf
    hasLanded := true }

/-- Drive one `updateLevelSystem` evaluation at wall-clock time `t.1` with
`t.2` live obstacles (the rest of the tick varies the obstacle count; the
level machine itself only reads it).  The random draw is pinned at 1 so the
stochastic decay pop never fires. -/
def levelTick (t : ℚ × ℕ) (s : GameState) : GameState :=
  (updateLevelSystem
    { now := t.1, cosDir := 0, sinDir := 0
      rand := fun _ => 1, sqrtQ := fun _ => 0, curve := fun _ => 10.5 } 0
    { s with obstacles := List.replicate t.2 dummyObstacle }).1

/-- Fold a list of `(time, obstacleCount)` observations through the level
machine. -/
def runLevelTicks (ticks : List (ℚ × ℕ)) (s : GameState) : GameState :=
  ticks.foldl (fun s t => levelTick t s) s

/-- The obstacle-control level `清理专家` (`maxObstacles 3`, `decayRate 0.5`)
as started by `startLevel()` at time 0. -/
def stateC5 : GameState :=
  { baseState with
    levelSystem :=
      { currentLevel := 6, levelType := .obstacle, isActive := true
        startTime := 0, timeLimit := 0, targetScore := 0, targetLength := 0
        maxObstacles := 3, decayRate := 0.5, lastDecayTime := 0
        completed := false, failed := false } }

/-- A state already at the obstacle cap (`maxObstacles = 5`). -/
def stateAtCap : GameState :=
  { baseState with obstacles := List.replicate 5 dummyObstacle }

/-- A state whose next spawn is due (`nextObstacleTime = 0 ≤ now`). -/
def stateSpawnDue : GameState :=
  { baseState with nextObstacleTime := 0 }

/-! ### Helper lemmas -/

theorem updateSnakeStun_of_not_stunned (s : GameState)
    (h : s.snakeStunned.isStunned = false) : updateSnakeStun s = s := by
  simp [updateSnakeStun, h]

theorem iterate_updateSnakeStun_of_not_stunned (k : ℕ) (s : GameState)
    (h : s.snakeStunned.isStunned = false) : updateSnakeStun^[k] s = s := by
  induction k with
  | zero => rfl
  | succ k ih =>
    rw [Function.iterate_succ_apply, updateSnakeStun_of_not_stunned s h, ih]

theorem updateSnakeStun_expire (s : GameState)
    (h1 : s.snakeStunned.isStunned = true)
    (h2 : s.snakeStunned.duration ≤ s.snakeStunned.elapsed + 16) :
    updateSnakeStun s =
      { s with
        snakeStunned :=
          { s.snakeStunned with
            isStunned := false,
            elapsed := s.snakeStunned.elapsed + 16 },
        moveSpeed := s.snakeStunned.originalSpeed } := by
  simp [updateSnakeStun, h1, h2]

theorem updateSnakeStun_progress (s : GameState)
    (h1 : s.snakeStunned.isStunned = true)
    (h2 : ¬ s.snakeStunned.duration ≤ s.snakeStunned.elapsed + 16) :
    updateSnakeStun s =
      { s with
        snakeStunned :=
          { s.snakeStunned with elapsed := s.snakeStunned.elapsed + 16 } } := by
  simp [updateSnakeStun, h1, h2]

/-- Once a stun is running, after any number of 16 ms steps whose total covers
the remaining duration the speed is back to the stored `originalSpeed` (and
stays there, since an expired stun makes `updateSnakeStun` a no-op). -/
theorem stun_restore (k : ℕ) :
    ∀ s : GameState, s.snakeStunned.isStunned = true →
      s.snakeStunned.duration ≤ s.snakeStunned.elapsed + 16 * (k : ℚ) → 1 ≤ k →
      (updateSnakeStun^[k] s).moveSpeed = s.snakeStunned.originalSpeed := by
  induction k with
  | zero => omega
  | succ k ih =>
    intro s h1 h2 _
    rw [Function.iterate_succ_apply]
    by_cases hd : s.snakeStunned.duration ≤ s.snakeStunned.elapsed + 16
    · rw [updateSnakeStun_expire s h1 hd,
        iterate_updateSnakeStun_of_not_stunned k _ rfl]
    · rcases Nat.eq_zero_or_pos k with hk | hk
      · subst hk
        exact absurd (by push_cast at h2; linarith) hd
      · rw [updateSnakeStun_progress s h1 hd]
        refine Eq.trans (ih _ h1 ?_ hk) rfl
        show s.snakeStunned.duration ≤ s.snakeStunned.elapsed + 16 + 16 * (k : ℚ)
        push_cast at h2 ⊢
        linarith

theorem teleportSnakeHead_moveSpeed (env : Env) (ri : ℕ) (s : GameState) :
    (teleportSnakeHead env ri s).1.moveSpeed = s.moveSpeed := by
  unfold teleportSnakeHead
  dsimp only
  split
  · split <;> rfl
  · rfl

theorem teleportSnakeHead_length (env : Env) (ri : ℕ) (s : GameState) :
    (teleportSnakeHead env ri s).1.snake.length = s.snake.length := by
  unfold teleportSnakeHead
  dsimp only
  split
  · split
    · rfl
    · next heq => simp [heq]
  · rfl

/-- After a penalty the trailing `startSnakeStun(600)` leaves the stun record
with a fresh 600 ms duration and zero elapsed time; the stored pre-stun speed
is the pre-penalty `moveSpeed` except for the `stun` tag, where the inner
`startSnakeStun(800)` has already slowed the snake to `0.3×` before the
trailing stun stores it. -/
theorem handleObstaclePenalty_snakeStunned (env : Env) (ri : ℕ)
    (eff : ObstacleEffect) (len : ℕ) (s : GameState) :
    (handleObstaclePenalty env ri eff len s).1.snakeStunned =
      { isStunned := true, duration := 600, elapsed := 0,
        originalSpeed :=
          if eff = ObstacleEffect.stun then s.moveSpeed * 0.3 else s.moveSpeed } := by
  cases eff <;>
    simp only [handleObstaclePenalty, startSnakeStun, activateSafetyBuff, reduceIte,
      reduceCtorEq] <;>
    split_ifs <;>
    simp [teleportSnakeHead_moveSpeed]

/-- `handleObstacleCollision` on a penalty hit (`snakeLength < level`): the
final `updateDifficulty` overwrites `moveSpeed` but not the stun record the
penalty just created. -/
theorem handleObstacleCollision_snakeStunned (env : Env) (ri : ℕ)
    (ob : Obstacle) (idx : ℕ) (s : GameState)
    (hPen : (s.snake.length : ℤ) < ob.level) :
    (handleObstacleCollision env ri ob idx s).1.snakeStunned =
      { isStunned := true, duration := 600, elapsed := 0,
        originalSpeed :=
          if ob.effect = ObstacleEffect.stun then s.moveSpeed * 0.3 else s.moveSpeed } := by
  unfold handleObstacleCollision
  dsimp only
  rw [if_neg (not_le.mpr hPen)]
  exact handleObstaclePenalty_snakeStunned env ri ob.effect s.snake.length _

/-! ### Claim C10 -/

/-- C10: every obstacle penalty branch, regardless of the obstacle's effect
tag, ends by starting a fresh 600 ms snake stun (for the `stun` tag the 800 ms
stun from the switch is immediately overwritten by the trailing one), so even
shrink-, halve- and teleport-tagged penalties leave the snake stunned. -/
theorem penalty_always_stuns (env : Env) (ri : ℕ) (eff : ObstacleEffect)
    (len : ℕ) (s : GameState) :
    (handleObstaclePenalty env ri eff len s).1.snakeStunned.isStunned = true ∧
      (handleObstaclePenalty env ri eff len s).1.snakeStunned.duration = 600 ∧
      (handleObstaclePenalty env ri eff len s).1.snakeStunned.elapsed = 0 := by
  cases eff <;> exact ⟨rfl, rfl, rfl⟩

/-! ### Claim C6 -/

/-- C6: a length-4 snake resolving a STRONG (halve-tagged) obstacle of level
10 takes the penalty branch (`¬(10 ≤ 4)`); its length becomes
`max(3, ⌊4 / 2⌋) = 3`, the combo counter resets to 0, and — since
`3 ≤ minSafeLength = 8` — the temporary invulnerability window activates. -/
theorem strong_obstacle_scenario :
    ¬ (obC6.level ≤ (stateC6.snake.length : ℤ)) ∧
      (handleObstacleCollision baseEnv 0 obC6 0 stateC6).1.snake.length = 3 ∧
      (handleObstacleCollision baseEnv 0 obC6 0 stateC6).1.comboCount = 0 ∧
      (handleObstacleCollision baseEnv 0 obC6 0 stateC6).1.isInvulnerable = true := by
  refine ⟨by decide, ?_, ?_, ?_⟩ <;>
    (norm_num [handleObstacleCollision, handleObstaclePenalty, handleObstacleReward,
      startSnakeStun, activateSafetyBuff, teleportSnakeHead, stateC6, obC6, baseEnv,
      mkSeg, baseState, DIFFICULTY_CONFIG, ObstacleType.effectOf]) <;> decide

/-! ### Claim C4 -/

/-- C4: starting from any snake of length at least 3, a penalty of any effect
tag (the shrink and halve truncations clamp at the floor of 3) and the
obstacle-decay truncation (guarded by `length > 3`) leave the snake no shorter
than 3. -/
theorem length_floor_three (env : Env) (ri : ℕ) (eff : ObstacleEffect)
    (s : GameState) (h : 3 ≤ s.snake.length) :
    3 ≤ (handleObstaclePenalty env ri eff s.snake.length s).1.snake.length ∧
      3 ≤ (applyObstacleDecay env ri s).1.snake.length := by
  constructor
  · cases eff <;>
      simp only [handleObstaclePenalty, startSnakeStun, activateSafetyBuff] <;>
      split_ifs <;>
      simp only [List.length_take, teleportSnakeHead_length] <;>
      first
        | exact h
        | omega
  · simp only [applyObstacleDecay]
    split_ifs <;> simp only [List.length_dropLast] <;> omega

/-- Witness for C4: the shrink tag on the initial three-segment snake. -/
theorem length_floor_three_witness :
    3 ≤ (handleObstaclePenalty baseEnv 0 ObstacleEffect.shrink
          baseState.snake.length baseState).1.snake.length ∧
      3 ≤ (applyObstacleDecay baseEnv 0 baseState).1.snake.length :=
  length_floor_three baseEnv 0 ObstacleEffect.shrink baseState (by decide)

/-! ### Claim C2 -/

/-- C2 as stated fails on the `stun` effect tag: in `handleObstaclePenalty`
the `stun` case starts an 800 ms stun (storing the true pre-collision speed
and slowing to `0.3×`), and the trailing unconditional `startSnakeStun(600)`
then stores the *already slowed* speed as `originalSpeed`; expiry restores
`0.3×` the pre-collision speed.  Concretely: `stateC2.moveSpeed = 10`, but
after resolving the stun-tagged `obC2` and letting the stun expire the speed
is 3, not 10. -/
theorem stun_roundtrip_counterexample : ¬ stunRoundTripClaim := by
  intro hclaim
  have h10 := hclaim baseEnv 0 obC2 0 stateC2 38 (by decide) (by decide)
  have hfields :
      (handleObstacleCollision baseEnv 0 obC2 0 stateC2).1.snakeStunned =
        { isStunned := true, duration := 600, elapsed := 0, originalSpeed := 3 } := by
    rw [handleObstacleCollision_snakeStunned baseEnv 0 obC2 0 stateC2 (by decide)]
    norm_num [obC2, stateC2, baseState, ObstacleType.effectOf]
  have h3 :
      (updateSnakeStun^[38] (handleObstacleCollision baseEnv 0 obC2 0 stateC2).1).moveSpeed
        = 3 := by
    rw [stun_restore 38 _ (by rw [hfields]) (by rw [hfields]; norm_num) (by norm_num),
      hfields]
  rw [h10] at h3
  norm_num [stateC2, baseState] at h3

/-- C2 amended: the stun round trip on `moveSpeed` holds exactly for the
shrink-, halve- and teleport-tagged penalties (where activation stores the
pre-collision speed and expiry restores it, untouched by the intervening
`updateDifficulty`); for a stun-tagged penalty two stuns are started
back-to-back (800 ms inside the switch, then the trailing 600 ms one), the
second of which stores the already-slowed speed, so after expiry the speed is
`0.3×` the pre-collision value. -/
theorem stun_roundtrip_amended (env : Env) (ri : ℕ) (ob : Obstacle) (idx : ℕ)
    (s : GameState) (k : ℕ) (hPen : (s.snake.length : ℤ) < ob.level)
    (hk : 38 ≤ k) :
    (updateSnakeStun^[k] (handleObstacleCollision env ri ob idx s).1).moveSpeed =
      if ob.effect = ObstacleEffect.stun then s.moveSpeed * 0.3 else s.moveSpeed := by
  have hfields := handleObstacleCollision_snakeStunned env ri ob idx s hPen
  rw [stun_restore k _ (by rw [hfields]) ?_ (by omega), hfields]
  rw [hfields]
  have : (608 : ℚ) ≤ 16 * (k : ℚ) := by
    have : (38 : ℚ) ≤ (k : ℚ) := by exact_mod_cast hk
    linarith
  norm_num
  linarith

/-- Witness for the amended C2 at the halve-tagged level-10 obstacle against
the length-4 snake. -/
theorem stun_roundtrip_amended_witness :
    (updateSnakeStun^[38] (handleObstacleCollision baseEnv 0 obC6 0 stateC6).1).moveSpeed =
      if obC6.effect = ObstacleEffect.stun then stateC6.moveSpeed * 0.3
      else stateC6.moveSpeed :=
  stun_roundtrip_amended baseEnv 0 obC6 0 stateC6 38 (by decide) (by decide)

/-! ### Claim C1 -/

/-- C1 as stated fails: in `update()` the obstacle-collision check
(`checkObstacleCollision`, line order in the source) runs *before* the
self-collision loop, so a quiescent tick reaches the checks in the order
boundary, obstacle, self, food — not boundary, self, obstacle, food. -/
theorem check_order_counterexample : ¬ claimedCheckOrder := by
  intro hclaim
  have hinst := hclaim baseEnv 0 baseState
  have htr : (updateWithTrace baseEnv 0 baseState).2.2 =
      [CheckEvent.boundary, CheckEvent.obstacle, CheckEvent.selfCheck,
        CheckEvent.food] := by
    norm_num [updateWithTrace, movedHead, headSeg, setHead, boundaryHit,
      updateObstacleSpawning, updateSnakeStun, updateInvulnerability,
      updateLevelSystem, checkObstacleCollision, checkObstacleLoop,
      selfCollisionHit, foodPhase, followPhase, followList, followSegment,
      gameOverFn, baseEnv, baseState, mkSeg, initialLevelSystem, GRID_SIZE,
      SMOOTH_FACTOR]
  rw [htr] at hinst
  simp at hinst

/-- C1 amended: the collision checks of a tick run in the fixed order
boundary first, then obstacle collision, then self-collision, then food —
the self-collision check is evaluated *after* the obstacle resolution (a
boundary hit ends the tick after the first check, a self-collision hit after
the third). -/
theorem check_order_amended (env : Env) (ri : ℕ) (s : GameState) :
    (updateWithTrace env ri s).2.2 = [CheckEvent.boundary] ∨
      (updateWithTrace env ri s).2.2 =
        [CheckEvent.boundary, CheckEvent.obstacle, CheckEvent.selfCheck] ∨
      (updateWithTrace env ri s).2.2 =
        [CheckEvent.boundary, CheckEvent.obstacle, CheckEvent.selfCheck,
          CheckEvent.food] := by
  unfold updateWithTrace
  dsimp only
  split
  · exact Or.inl rfl
  · split
    · exact Or.inr (Or.inl rfl)
    · exact Or.inr (Or.inr rfl)

/-! ### Invulnerability-field preservation lemmas (for C7) -/

theorem setHead_isInvulnerable (h : Segment) (s : GameState) :
    (setHead h s).isInvulnerable = s.isInvulnerable := by
  unfold setHead; split <;> rfl

theorem setHead_invEnd (h : Segment) (s : GameState) :
    (setHead h s).invulnerableEndTime = s.invulnerableEndTime := by
  unfold setHead; split <;> rfl

theorem generateObstacle_isInvulnerable (env : Env) (ri : ℕ) (s : GameState) :
    (generateObstacle env ri s).1.isInvulnerable = s.isInvulnerable := by
  unfold generateObstacle; dsimp only; split
  · rfl
  · split <;> rfl

theorem generateObstacle_invEnd (env : Env) (ri : ℕ) (s : GameState) :
    (generateObstacle env ri s).1.invulnerableEndTime = s.invulnerableEndTime := by
  unfold generateObstacle; dsimp only; split
  · rfl
  · split <;> rfl

theorem updateObstacleSpawning_isInvulnerable (env : Env) (ri : ℕ) (s : GameState) :
    (updateObstacleSpawning env ri s).1.isInvulnerable = s.isInvulnerable := by
  unfold updateObstacleSpawning scheduleNextObstacle; dsimp only
  split
  · rfl
  · split
    · exact generateObstacle_isInvulnerable env ri s
    · rfl

theorem updateObstacleSpawning_invEnd (env : Env) (ri : ℕ) (s : GameState) :
    (updateObstacleSpawning env ri s).1.invulnerableEndTime = s.invulnerableEndTime := by
  unfold updateObstacleSpawning scheduleNextObstacle; dsimp only
  split
  · rfl
  · split
    · exact generateObstacle_invEnd env ri s
    · rfl

theorem updateSnakeStun_isInvulnerable (s : GameState) :
    (updateSnakeStun s).isInvulnerable = s.isInvulnerable := by
  unfold updateSnakeStun; dsimp only; split_ifs <;> rfl

theorem updateSnakeStun_invEnd (s : GameState) :
    (updateSnakeStun s).invulnerableEndTime = s.invulnerableEndTime := by
  unfold updateSnakeStun; dsimp only; split_ifs <;> rfl

theorem checkLevelCompletion_isInvulnerable (now : ℚ) (s : GameState) :
    (checkLevelCompletion now s).isInvulnerable = s.isInvulnerable := by
  unfold checkLevelCompletion levelCompletedFn pauseGame; dsimp only
  split_ifs <;> rfl

theorem checkLevelCompletion_invEnd (now : ℚ) (s : GameState) :
    (checkLevelCompletion now s).invulnerableEndTime = s.invulnerableEndTime := by
  unfold checkLevelCompletion levelCompletedFn pauseGame; dsimp only
  split_ifs <;> rfl

theorem applyObstacleDecay_isInvulnerable (env : Env) (ri : ℕ) (s : GameState) :
    (applyObstacleDecay env ri s).1.isInvulnerable = s.isInvulnerable := by
  unfold applyObstacleDecay; dsimp only; split_ifs <;> rfl

theorem applyObstacleDecay_invEnd (env : Env) (ri : ℕ) (s : GameState) :
    (applyObstacleDecay env ri s).1.invulnerableEndTime = s.invulnerableEndTime := by
  unfold applyObstacleDecay; dsimp only; split_ifs <;> rfl

theorem updateLevelSystem_isInvulnerable (env : Env) (ri : ℕ) (s : GameState) :
    (updateLevelSystem env ri s).1.isInvulnerable = s.isInvulnerable := by
  unfold updateLevelSystem levelFailedFn pauseGame; dsimp only
  split_ifs <;>
    simp [checkLevelCompletion_isInvulnerable, applyObstacleDecay_isInvulnerable]

theorem updateLevelSystem_invEnd (env : Env) (ri : ℕ) (s : GameState) :
    (updateLevelSystem env ri s).1.invulnerableEndTime = s.invulnerableEndTime := by
  unfold updateLevelSystem levelFailedFn pauseGame; dsimp only
  split_ifs <;>
    simp [checkLevelCompletion_invEnd, applyObstacleDecay_invEnd]

/-- While the buff has not expired, `updateInvulnerability` changes nothing. -/
theorem updateInvulnerability_active (now : ℚ) (s : GameState)
    (h1 : s.isInvulnerable = true) (h2 : now < s.invulnerableEndTime) :
    updateInvulnerability now s = s := by
  simp [updateInvulnerability, h1, not_le.mpr h2]

/-- `checkObstacleCollision` returns early while invulnerable: no obstacle is
removed, no effect applied, no random value drawn, no hit reported. -/
theorem checkObstacleCollision_of_inv (env : Env) (ri : ℕ) (s : GameState)
    (h : s.isInvulnerable = true) :
    checkObstacleCollision env ri s = (s, ri, false) := by
  simp [checkObstacleCollision, h]

/-! ### Claim C7 -/

/-- C7: while the invulnerability buff is active (and does not expire on this
very tick), the tick is exactly the same pipeline with the obstacle-collision
resolution replaced by a no-op: no obstacle effect is applied and no obstacle
is removed by collision, while the boundary, self-collision and food checks
are evaluated and take effect as normal. -/
theorem invulnerability_bypass (env : Env) (ri : ℕ) (s : GameState)
    (h1 : s.isInvulnerable = true) (h2 : env.now < s.invulnerableEndTime) :
    updateWithTrace env ri s = updateWithTraceInvulnerableSpec env ri s := by
  unfold updateWithTrace updateWithTraceInvulnerableSpec
  dsimp only
  split
  · rfl
  · rw [updateInvulnerability_active _ _ ?hA ?hB]
    case hA =>
      simp [updateSnakeStun_isInvulnerable, updateObstacleSpawning_isInvulnerable,
        setHead_isInvulnerable, h1]
    case hB =>
      simp [updateSnakeStun_invEnd, updateObstacleSpawning_invEnd, setHead_invEnd, h2]
    rw [checkObstacleCollision_of_inv _ _ _ ?hC]
    case hC =>
      simp [updateLevelSystem_isInvulnerable, updateSnakeStun_isInvulnerable,
        updateObstacleSpawning_isInvulnerable, setHead_isInvulnerable, h1]

/-- Witness for C7: an invulnerable snake whose buff outlives the tick. -/
theorem invulnerability_bypass_witness :
    stateC7.isInvulnerable = true ∧ baseEnv.now < stateC7.invulnerableEndTime ∧
      updateWithTrace baseEnv 0 stateC7 = updateWithTraceInvulnerableSpec baseEnv 0 stateC7 :=
  ⟨rfl, by decide, invulnerability_bypass baseEnv 0 stateC7 rfl (by decide)⟩

/-! ### Claim C8 -/

/-- C8: the boundary check is half-open — if after this tick's movement the
head's continuous position is exactly the upper boundary coordinate
`BOARD_SIZE * GRID_SIZE = 300` on either axis, or negative on either axis, the
game-over transition fires on that tick (the tick ends right after the
boundary check). -/
theorem boundary_exact_upper_edge (env : Env) (ri : ℕ) (s : GameState)
    (h : (movedHead env s).actualX = 300 ∨ (movedHead env s).actualY = 300 ∨
      (movedHead env s).actualX < 0 ∨ (movedHead env s).actualY < 0) :
    updateWithTrace env ri s =
      (gameOverFn (setHead (movedHead env s) s), ri, [CheckEvent.boundary]) := by
  have hb : boundaryHit (movedHead env s) = true := by
    rcases h with h | h | h | h <;> simp [boundaryHit, h]
  unfold updateWithTrace
  dsimp only
  rw [if_pos hb]

/-- The C8 fixture reaches the boundary exactly:
`298.5 + ((300 + 1) - 298.5) * 0.6 = 300`. -/
theorem stateC8_hits_edge : (movedHead baseEnv stateC8).actualX = 300 := by
  norm_num [movedHead, headSeg, stateC8, baseState, baseEnv, mkSeg, SMOOTH_FACTOR]

/-- Witness for C8 at the concrete fixture. -/
theorem boundary_exact_upper_edge_witness :
    updateWithTrace baseEnv 0 stateC8 =
      (gameOverFn (setHead (movedHead baseEnv stateC8) stateC8), 0,
        [CheckEvent.boundary]) :=
  boundary_exact_upper_edge baseEnv 0 stateC8 (Or.inl stateC8_hits_edge)

/-! ### Rejection-sampling loop characterization (for C9) -/

theorem doWhileSample_attempts_le (occ : ℤ × ℤ → Bool) (rand : ℕ → ℚ) (c : ℕ) :
    ∀ (f a i : ℕ), a + f = c → (doWhileSample occ rand c f i a).2.1 ≤ c := by
  intro f
  induction f with
  | zero =>
    intro a i h
    simpa [doWhileSample] using h.le
  | succ f ih =>
    intro a i h
    rw [doWhileSample]
    split
    · exact ih (a + 1) (i + 2) (by omega)
    · show a + 1 ≤ c
      omega

/-- The loop exits with `attempts = cap` exactly when every cell sampled by
the first `fuel - 1` attempts is occupied (the final sample is drawn but its
occupancy can no longer keep the loop going, so it does not matter). -/
theorem doWhileSample_attempts_iff (occ : ℤ × ℤ → Bool) (rand : ℕ → ℚ) (c : ℕ) :
    ∀ (f a i : ℕ), a + f = c → 1 ≤ f →
      ((doWhileSample occ rand c f i a).2.1 = c ↔
        ∀ k, k < f - 1 → occ (sampleCell rand (i + 2 * k)) = true) := by
  intro f
  induction f with
  | zero => omega
  | succ f ih =>
    intro a i h _
    rw [doWhileSample]
    rcases Nat.eq_zero_or_pos f with hf | hf
    · subst hf
      rw [if_neg (fun hc => by omega)]
      constructor
      · intro _ k hk
        omega
      · intro _
        show a + 1 = c
        omega
    · have hlt : a + 1 < c := by omega
      by_cases ho : occ (sampleCell rand i) = true
      · rw [if_pos ⟨ho, hlt⟩, ih (a + 1) (i + 2) (by omega) hf]
        constructor
        · intro hall k hk
          cases k with
          | zero => simpa using ho
          | succ j =>
            have hj := hall j (by omega)
            have heq : i + 2 + 2 * j = i + 2 * (j + 1) := by ring
            rw [heq] at hj
            exact hj
        · intro hall k hk
          have hj := hall (k + 1) (by omega)
          have heq : i + 2 * (k + 1) = i + 2 + 2 * k := by ring
          rw [heq] at hj
          exact hj
      · rw [if_neg (fun hc => ho hc.1)]
        constructor
        · intro hceq
          exfalso
          have : a + 1 = c := hceq
          omega
        · intro hall
          exact absurd (hall 0 (by omega)) (by simpa using ho)

/-! ### Claim C9 -/

/-- In `envC9` the first 49 spawn-sampling attempts all hit the food cell
`(20, 20)`. -/
theorem envC9_first49 (k : ℕ) (hk : k < 49) :
    isPositionOccupied baseState (cellAt envC9 0 k).1 (cellAt envC9 0 k).2 = true := by
  have h1 : 0 + 2 * k < 98 := by omega
  have h2 : 0 + 2 * k + 1 < 98 := by omega
  simp only [cellAt, sampleCell, envC9, baseEnv, if_pos h1, if_pos h2]
  norm_num [isPositionOccupied, baseState, mkSeg]

/-- In `envC9` the 50th sampled cell is the free cell `(0, 0)`. -/
theorem envC9_cell49_free :
    isPositionOccupied baseState (cellAt envC9 0 49).1 (cellAt envC9 0 49).2 = false := by
  norm_num [cellAt, sampleCell, envC9, baseEnv, isPositionOccupied, baseState, mkSeg]

/-- C9 as stated fails on the attempt-ceiling guard: with `envC9` the first 49
samples are occupied and the 50th lands on the free cell `(0, 0)`, so the
sampling *does* find an unoccupied cell, yet `attempts >= 50` makes
`generateObstacle` discard it and spawn nothing (and the obstacle list is
below the cap). -/
theorem spawn_noop_counterexample : ¬ spawnNoOpClaim := by
  intro hclaim
  have h50 : (doWhileSample (fun c => isPositionOccupied baseState c.1 c.2)
      envC9.rand 50 50 0 0).2.1 = 50 := by
    refine (doWhileSample_attempts_iff _ envC9.rand 50 50 0 0 rfl (by omega)).mpr ?_
    intro k hk
    exact envC9_first49 k (by omega)
  have hunchanged : (generateObstacle envC9 0 baseState).1.obstacles =
      baseState.obstacles := by
    unfold generateObstacle
    rw [if_neg (by decide), if_pos (le_of_eq h50.symm)]
  rcases (hclaim envC9 0 baseState).mp hunchanged with hcap | hall
  · exact absurd hcap (by decide)
  · exact absurd (hall 49 (by omega)) (by rw [envC9_cell49_free]; decide)

/-- C9 amended: a spawn attempt leaves the obstacle list unchanged exactly
when the obstacle count is at the `maxObstacles` cap or the first 49
rejection-sampling attempts all hit occupied cells — the `attempts >= 50`
guard discards the 50th sample even when it found a free cell.  In either
case the next spawn is scheduled exactly as after a successful spawn:
whenever a spawn is due, `updateObstacleSpawning` is the spawn attempt
followed by `scheduleNextObstacle`. -/
theorem spawn_noop_amended (env : Env) (ri : ℕ) (s : GameState) :
    ((generateObstacle env ri s).1.obstacles = s.obstacles ↔
      (s.maxObstacles ≤ s.obstacles.length ∨
        ∀ k, k < 49 →
          isPositionOccupied s (cellAt env ri k).1 (cellAt env ri k).2 = true)) ∧
      (s.gameState = GameMode.playing → s.nextObstacleTime ≤ env.now →
        updateObstacleSpawning env ri s =
          scheduleNextObstacle env (generateObstacle env ri s).2
            (generateObstacle env ri s).1) := by
  constructor
  · have hle := doWhileSample_attempts_le (fun c => isPositionOccupied s c.1 c.2)
      env.rand 50 50 0 ri rfl
    have hiff := doWhileSample_attempts_iff (fun c => isPositionOccupied s c.1 c.2)
      env.rand 50 50 0 ri rfl (by omega)
    unfold generateObstacle
    dsimp only
    split
    · next hcap => simp [hcap]
    · next hcap =>
      split
      · next h50 =>
        have h50eq : (doWhileSample (fun c => isPositionOccupied s c.1 c.2)
            env.rand 50 50 ri 0).2.1 = 50 := le_antisymm hle h50
        refine iff_of_true rfl (Or.inr ?_)
        intro k hk
        exact hiff.mp h50eq k (by omega)
      · next h50 =>
        refine iff_of_false ?_ ?_
        · intro heq
          have := congrArg List.length heq
          simp at this
        · rintro (hc | hall)
          · exact hcap hc
          · exact h50 ((hiff.mpr fun k hk => hall k (by omega)).ge)
  · intro hp ht
    simp [updateObstacleSpawning, hp, ht]

/-- Witness for the amended C9: the cap case leaves the list unchanged, and a
due tick always reschedules. -/
theorem spawn_noop_amended_witness :
    (generateObstacle baseEnv 0 stateAtCap).1.obstacles = stateAtCap.obstacles ∧
      updateObstacleSpawning baseEnv 0 stateSpawnDue =
        scheduleNextObstacle baseEnv (generateObstacle baseEnv 0 stateSpawnDue).2
          (generateObstacle baseEnv 0 stateSpawnDue).1 :=
  ⟨(spawn_noop_amended baseEnv 0 stateAtCap).1.mpr (Or.inl (by decide)),
    (spawn_noop_amended baseEnv 0 stateSpawnDue).2 rfl (by decide)⟩

/-! ### Claim C5 -/

/-- C5 concerns a trace the code mishandles: on the obstacle-control level
(`maxObstacles = 3`, started at time 0) the obstacle count is 4 — above the
cap — 20 s into the 30 s window, and back at 3 when 30 s have elapsed.
`checkLevelCompletion` only tests the *current* count against the cap
together with `elapsed >= 30000`, so the run is marked Completed even though
the count did not stay at or below the cap throughout the window (the code's
own comment asks for the limit to be *held* for a sustained 30 s). -/
theorem obstacle_control_completion_bug :
    stateC5.levelSystem.maxObstacles = 3 ∧
      stateC5.levelSystem.startTime = 0 ∧
      (runLevelTicks [(20000, 4), (30000, 3)] stateC5).levelSystem.completed = true := by
  refine ⟨rfl, rfl, ?_⟩
  norm_num [runLevelTicks, levelTick, updateLevelSystem, checkLevelCompletion,
    applyObstacleDecay, levelCompletedFn, levelFailedFn, pauseGame, stateC5,
    baseState, initialLevelSystem, dummyObstacle, mkSeg, List.foldl_cons,
    List.foldl_nil]

/-! ### Difficulty-curve lemmas (for C3) -/

theorem speedIncreaseRaw_nonneg (d : ℕ) : 0 ≤ speedIncreaseRaw d := by
  unfold speedIncreaseRaw
  split_ifs with h1 h2
  · positivity
  · have hd : (11 : ℝ) ≤ (d : ℝ) := by exact_mod_cast Nat.lt_of_not_le (by omega)
    have hp : (0 : ℝ) < (1.05 : ℝ) ^ (((d : ℝ) - 5) * 0.1) :=
      Real.rpow_pos_of_pos (by norm_num) _
    nlinarith
  · have hd : (31 : ℝ) ≤ (d : ℝ) := by exact_mod_cast Nat.lt_of_not_le (by omega)
    have hp : (0 : ℝ) < (1.05 : ℝ) ^ (0.7 : ℝ) := Real.rpow_pos_of_pos (by norm_num) _
    have hl : (0 : ℝ) ≤ Real.log ((d : ℝ) - 7) := Real.log_nonneg (by linarith)
    nlinarith

theorem one_le_rpow_105 (y : ℝ) (hy : 0 ≤ y) : (1 : ℝ) ≤ (1.05 : ℝ) ^ y := by
  have h := Real.rpow_le_rpow_of_exponent_le (by norm_num : (1:ℝ) ≤ 1.05) hy
  rwa [Real.rpow_zero] at h

theorem speedIncreaseRaw_mono (d : ℕ) (h1 : 1 ≤ d) (h29 : d ≤ 29) :
    speedIncreaseRaw d ≤ speedIncreaseRaw (d + 1) := by
  unfold speedIncreaseRaw
  rcases Nat.lt_or_ge d 10 with hA | hB
  · rw [if_pos (by omega), if_pos (by omega)]
    push_cast
    linarith
  · rcases Nat.eq_or_lt_of_le hB with hEq | hGt
    · subst hEq
      rw [if_pos (by omega), if_neg (by omega), if_pos (by omega)]
      have hx : (1 : ℝ) ≤ (1.05 : ℝ) ^ ((((10 + 1 : ℕ) : ℝ) - 5) * 0.1) :=
        one_le_rpow_105 _ (by push_cast; norm_num)
      push_cast at hx ⊢
      nlinarith [hx]
    · rw [if_neg (by omega), if_pos (by omega), if_neg (by omega), if_pos (by omega)]
      have ha : (6 : ℝ) ≤ (d : ℝ) - 5 := by
        have : (11 : ℝ) ≤ (d : ℝ) := by exact_mod_cast hGt
        linarith
      have hpa : (0 : ℝ) < (1.05 : ℝ) ^ (((d : ℝ) - 5) * 0.1) :=
        Real.rpow_pos_of_pos (by norm_num) _
      have hmono : (1.05 : ℝ) ^ (((d : ℝ) - 5) * 0.1) ≤
          (1.05 : ℝ) ^ (((((d + 1) : ℕ) : ℝ) - 5) * 0.1) :=
        Real.rpow_le_rpow_of_exponent_le (by norm_num) (by push_cast; linarith)
      push_cast at hmono ⊢
      nlinarith [mul_le_mul_of_nonneg_left hmono
        (by linarith : (0:ℝ) ≤ (d : ℝ) - 5 + 1), hpa]

theorem speedIncreaseRaw_cap (d : ℕ) (h30 : 30 ≤ d) :
    (14.5 : ℝ) ≤ speedIncreaseRaw d := by
  unfold speedIncreaseRaw
  split_ifs with h1 h2
  · omega
  · have ha : (25 : ℝ) ≤ (d : ℝ) - 5 := by
      have : (30 : ℝ) ≤ (d : ℝ) := by exact_mod_cast h30
      linarith
    have hx := one_le_rpow_105 (((d : ℝ) - 5) * 0.1) (by linarith)
    nlinarith
  · have hd : (31 : ℝ) ≤ (d : ℝ) := by exact_mod_cast Nat.lt_of_not_le (by omega)
    have hx := one_le_rpow_105 (0.7 : ℝ) (by norm_num)
    have h24 : Real.log 24 ≤ Real.log ((d : ℝ) - 7) :=
      Real.log_le_log (by norm_num) (by linarith)
    have h16 : Real.log 16 ≤ Real.log 24 := Real.log_le_log (by norm_num) (by norm_num)
    have hpow : Real.log 16 = 4 * Real.log 2 := by
      rw [show (16 : ℝ) = 2 ^ (4 : ℕ) by norm_num, Real.log_pow]
      push_cast
      ring
    have h2 : (0.6931471803 : ℝ) < Real.log 2 := Real.log_two_gt_d9
    nlinarith

theorem dynamicFactorR_nonneg (t : ℝ) (L : ℕ) (ht : 0 ≤ t) :
    0 ≤ dynamicFactorR t L := by
  unfold dynamicFactorR
  split_ifs
  · norm_num
  · have hm : (0 : ℝ) ≤ min 1 (t / 15000) := le_min (by norm_num) (by positivity)
    nlinarith

theorem dynamicFactorR_ge_one (t : ℝ) (L : ℕ) (ht : 0 ≤ t) (hL : 8 ≤ L) :
    1 ≤ dynamicFactorR t L := by
  unfold dynamicFactorR
  rw [if_neg (by omega)]
  have hm : (0 : ℝ) ≤ min 1 (t / 15000) := le_min (by norm_num) (by positivity)
  nlinarith

theorem dynamicFactorR_mono (t : ℝ) (L : ℕ) (ht : 0 ≤ t) :
    dynamicFactorR t L ≤ dynamicFactorR t (L + 1) := by
  unfold dynamicFactorR
  have hm : (0 : ℝ) ≤ min 1 (t / 15000) := le_min (by norm_num) (by positivity)
  split_ifs <;> first | rfl | omega | nlinarith

theorem comboFactorR_ge_one (c : ℕ) : 1 ≤ comboFactorR c := by
  unfold comboFactorR
  split_ifs
  · exact one_le_pow₀ (by norm_num)
  · exact le_refl 1

theorem comboFactorR_nonneg (c : ℕ) : 0 ≤ comboFactorR c :=
  le_trans (by norm_num) (comboFactorR_ge_one c)

theorem calculateSpeedFromLength_eq (t : ℝ) (c : ℕ) (L : ℕ) :
    calculateSpeedFromLength t c L =
      if L - 3 = 0 then 10.5
      else
        min (10.5 + speedIncreaseRaw (L - 3) * dynamicFactorR t L * comboFactorR c)
          25 := rfl

theorem speed_step (t : ℝ) (c : ℕ) (L : ℕ) (ht : 0 ≤ t) (hL : 3 ≤ L) :
    calculateSpeedFromLength t c L ≤ calculateSpeedFromLength t c (L + 1) := by
  obtain ⟨d, rfl⟩ : ∃ d, L = d + 3 := ⟨L - 3, by omega⟩
  rw [calculateSpeedFromLength_eq, calculateSpeedFromLength_eq,
    show d + 3 - 3 = d from by omega, show d + 3 + 1 - 3 = d + 1 from by omega]
  rcases Nat.eq_zero_or_pos d with rfl | hd1
  · rw [if_pos rfl, if_neg (by omega)]
    have hR := speedIncreaseRaw_nonneg (0 + 1)
    have hD := dynamicFactorR_nonneg t (0 + 3 + 1) ht
    have hC := comboFactorR_nonneg c
    refine le_min (by nlinarith [mul_nonneg (mul_nonneg hR hD) hC]) (by norm_num)
  · rw [if_neg (by omega), if_neg (by omega)]
    rcases Nat.lt_or_ge d 30 with hd30 | hd30
    · refine min_le_min (add_le_add_left ?_ _) le_rfl
      have hR := speedIncreaseRaw_mono d hd1 (by omega)
      have hR1 := speedIncreaseRaw_nonneg (d + 1)
      have hD := dynamicFactorR_mono t (d + 3) ht
      have hD0 := dynamicFactorR_nonneg t (d + 3) ht
      have hC0 := comboFactorR_nonneg c
      have key : speedIncreaseRaw d * dynamicFactorR t (d + 3) ≤
          speedIncreaseRaw (d + 1) * dynamicFactorR t (d + 3 + 1) :=
        mul_le_mul hR hD hD0 hR1
      exact mul_le_mul_of_nonneg_right key hC0
    · have hR := speedIncreaseRaw_cap (d + 1) (by omega)
      have hD := dynamicFactorR_ge_one t (d + 3 + 1) ht (by omega)
      have hC := comboFactorR_ge_one c
      have h25 : (25 : ℝ) ≤ 10.5 +
          speedIncreaseRaw (d + 1) * dynamicFactorR t (d + 3 + 1) * comboFactorR c := by
        have hRD : (14.5 : ℝ) * 1 ≤
            speedIncreaseRaw (d + 1) * dynamicFactorR t (d + 3 + 1) :=
          mul_le_mul hR hD (by norm_num) (by linarith)
        have hRDC : (14.5 : ℝ) * 1 * 1 ≤
            speedIncreaseRaw (d + 1) * dynamicFactorR t (d + 3 + 1) * comboFactorR c :=
          mul_le_mul hRD hC (by norm_num) (by linarith)
        linarith
      rw [min_eq_right h25]
      exact min_le_right _ _

/-! ### Claim C3 -/

/-- C3: with the survival-time and combo context held fixed (any nonnegative
survival time, any combo count), the computed speed never exceeds
`maxSpeed = 25` and is non-decreasing in the length for all lengths at or
above `initialLength = 3` — including across the regime boundaries at
`lengthDiff = 10` and `lengthDiff = 30` (from `lengthDiff = 30` on, the `min`
cap pins the speed at 25, absorbing the drop of the raw increase at the
regime-C handover) and across the `minSafeLength = 8` damping threshold. -/
theorem speed_curve_bounded_monotone (t : ℝ) (c : ℕ) (L M : ℕ) (ht : 0 ≤ t)
    (hL : 3 ≤ L) (hLM : L ≤ M) :
    calculateSpeedFromLength t c L ≤ ((DIFFICULTY_CONFIG.maxSpeed : ℚ) : ℝ) ∧
      calculateSpeedFromLength t c L ≤ calculateSpeedFromLength t c M := by
  constructor
  · have h25 : ((DIFFICULTY_CONFIG.maxSpeed : ℚ) : ℝ) = 25 := by
      norm_num [DIFFICULTY_CONFIG]
    rw [h25, calculateSpeedFromLength_eq]
    split_ifs
    · norm_num
    · exact min_le_right _ _
  · induction M, hLM using Nat.le_induction with
    | base => exact le_refl _
    | succ M hM ih => exact le_trans ih (speed_step t c M ht (by omega))

/-- Witness for C3 at survival time 0, combo 0, lengths 3 and 4. -/
theorem speed_curve_bounded_monotone_witness :
    calculateSpeedFromLength 0 0 3 ≤ ((DIFFICULTY_CONFIG.maxSpeed : ℚ) : ℝ) ∧
      calculateSpeedFromLength 0 0 3 ≤ calculateSpeedFromLength 0 0 4 :=
  speed_curve_bounded_monotone 0 0 3 4 (le_refl 0) (by decide) (by decide)

end SnakeGame
